import Mathlib

/-!
Verification development for the Tauri supervisory core in
`packages/lark-slack-desktop/src-tauri/src/main.rs`.

The shallow embedding below translates, from the Rust source:
* the subset of `serde_json` values and parsing used by the child's stdout
  protocol (`Json`, `parseJson`, `jGet`, `jAsBool`, `jAsU64`);
* the data model (`Config`, `MessageStats`, `BridgeStatus`, `LogEntry`);
* the stdout line dispatcher spawned by `start_bridge` (`handleLine`,
  `processLines`);
* the supervisor commands `start_bridge` / `stop_bridge` / `save_config`
  (`startBridge`, `stopBridge`, `saveConfig`), with the outcomes of the
  external effects (filesystem probes, spawn, HTTP, kill) passed in as
  explicit oracle parameters, since those effects live outside the process
  state;
* the `complete_slack_oauth` polling loop (`pollGo`, `completeOAuthPoll`)
  and its final config commit (`completeOAuthCommit`).
-/

/-! ## JSON values (the `serde_json::Value` subset exercised by the protocol)

`Json.num` holds integer literals (the only numeric shape `as_u64` accepts);
a number literal with a fraction or exponent part is kept opaque as
`Json.fnum` (serde stores it as `f64`, on which `as_u64` returns `None`).
Object fields are kept in input order; none of the protocol lines considered
here uses duplicate keys.
-/

inductive Json where
  | null
  | bool (b : Bool)
  | num (n : Int)
  | fnum (raw : String)
  | str (s : String)
  | arr (elems : List Json)
  | obj (fields : List (String × Json))

def jsonWs (c : Char) : Bool :=
  c = ' ' || c = '\n' || c = '\r' || c = '\t'

def skipWs : List Char → List Char
  | [] => []
  | c :: cs => if jsonWs c then skipWs cs else c :: cs

def hexVal (c : Char) : Option Nat :=
  if '0' ≤ c ∧ c ≤ '9' then some (c.toNat - '0'.toNat)
  else if 'a' ≤ c ∧ c ≤ 'f' then some (c.toNat - 'a'.toNat + 10)
  else if 'A' ≤ c ∧ c ≤ 'F' then some (c.toNat - 'A'.toNat + 10)
  else none

/-- Body of a JSON string literal, after the opening quote: returns the
decoded characters and the input remaining after the closing quote.
Unescaped control characters are rejected, as serde rejects them. -/
def parseStrChars : List Char → Option (List Char × List Char)
  | [] => none
  | '\\' :: 'u' :: h1 :: h2 :: h3 :: h4 :: rest =>
    match hexVal h1, hexVal h2, hexVal h3, hexVal h4 with
    | some a, some b, some c, some d =>
      match parseStrChars rest with
      | some (out, rem) => some (Char.ofNat (((a * 16 + b) * 16 + c) * 16 + d) :: out, rem)
      | none => none
    | _, _, _, _ => none
  | '\\' :: e :: rest =>
    let esc : Option Char :=
      if e = '"' then some '"'
      else if e = '\\' then some '\\'
      else if e = '/' then some '/'
      else if e = 'n' then some '\n'
      else if e = 't' then some '\t'
      else if e = 'r' then some '\r'
      else if e = 'b' then some (Char.ofNat 8)
      else if e = 'f' then some (Char.ofNat 12)
      else none
    match esc with
    | some ch =>
      match parseStrChars rest with
      | some (out, rem) => some (ch :: out, rem)
      | none => none
    | none => none
  | c :: rest =>
    if c = '"' then some ([], rest)
    else if c.toNat < 32 then none
    else
      match parseStrChars rest with
      | some (out, rem) => some (c :: out, rem)
      | none => none

def parseDigits : List Char → List Char × List Char
  | [] => ([], [])
  | c :: rest =>
    if c.isDigit then
      let (ds, r) := parseDigits rest
      (c :: ds, r)
    else ([], c :: rest)

def digitsVal (ds : List Char) : Nat :=
  ds.foldl (fun a c => a * 10 + (c.toNat - 48)) 0

/-- Optional fraction part `.digits`; returns the consumed characters. -/
def parseFracPart : List Char → Option (List Char × List Char)
  | '.' :: cs =>
    let (ds, r) := parseDigits cs
    if ds.isEmpty then none else some ('.' :: ds, r)
  | cs => some ([], cs)

/-- Optional exponent part `e[+-]digits`; returns the consumed characters. -/
def parseExpPart : List Char → Option (List Char × List Char)
  | [] => some ([], [])
  | c :: cs =>
    if c = 'e' ∨ c = 'E' then
      match cs with
      | s :: r =>
        if s = '+' ∨ s = '-' then
          let (ds, r2) := parseDigits r
          if ds.isEmpty then none else some (c :: s :: ds, r2)
        else
          let (ds, r2) := parseDigits cs
          if ds.isEmpty then none else some (c :: ds, r2)
      | [] => none
    else some ([], c :: cs)

def parseNumber (cs : List Char) : Option (Json × List Char) :=
  let (sgn, cs1) := match cs with
    | '-' :: r => (['-'], r)
    | _ => (([] : List Char), cs)
  let (ds, cs2) := parseDigits cs1
  if ds.isEmpty then none
  else if ds.head? = some '0' ∧ ds.length ≠ 1 then none
  else
    match parseFracPart cs2 with
    | none => none
    | some (fr, cs3) =>
      match parseExpPart cs3 with
      | none => none
      | some (ex, cs4) =>
        if fr.isEmpty ∧ ex.isEmpty then
          let n : Int := Int.ofNat (digitsVal ds)
          some (Json.num (if sgn.isEmpty then n else -n), cs4)
        else some (Json.fnum (String.mk (sgn ++ ds ++ fr ++ ex)), cs4)

mutual

def parseVal : Nat → List Char → Option (Json × List Char)
  | 0, _ => none
  | fuel + 1, cs =>
    match skipWs cs with
    | [] => none
    | c :: rest =>
      if c = '"' then
        match parseStrChars rest with
        | some (chs, rem) => some (Json.str (String.mk chs), rem)
        | none => none
      else if c = '{' then
        match skipWs rest with
        | '}' :: rem => some (Json.obj [], rem)
        | cs2 =>
          match parseMembers fuel cs2 with
          | some (fs, rem) => some (Json.obj fs, rem)
          | none => none
      else if c = '[' then
        match skipWs rest with
        | ']' :: rem => some (Json.arr [], rem)
        | cs2 =>
          match parseElems fuel cs2 with
          | some (xs, rem) => some (Json.arr xs, rem)
          | none => none
      else if c = 't' then
        match rest with
        | 'r' :: 'u' :: 'e' :: rem => some (Json.bool true, rem)
        | _ => none
      else if c = 'f' then
        match rest with
        | 'a' :: 'l' :: 's' :: 'e' :: rem => some (Json.bool false, rem)
        | _ => none
      else if c = 'n' then
        match rest with
        | 'u' :: 'l' :: 'l' :: rem => some (Json.null, rem)
        | _ => none
      else if c = '-' ∨ c.isDigit then parseNumber (c :: rest)
      else none

def parseMembers : Nat → List Char → Option (List (String × Json) × List Char)
  | 0, _ => none
  | fuel + 1, cs =>
    match skipWs cs with
    | '"' :: rest =>
      match parseStrChars rest with
      | some (key, rem) =>
        match skipWs rem with
        | ':' :: rem2 =>
          match parseVal fuel rem2 with
          | some (v, rem3) =>
            match skipWs rem3 with
            | ',' :: rem4 =>
              match parseMembers fuel rem4 with
              | some (fs, rem5) => some ((String.mk key, v) :: fs, rem5)
              | none => none
            | '}' :: rem4 => some ([(String.mk key, v)], rem4)
            | _ => none
          | none => none
        | _ => none
      | none => none
    | _ => none

def parseElems : Nat → List Char → Option (List Json × List Char)
  | 0, _ => none
  | fuel + 1, cs =>
    match parseVal fuel cs with
    | some (v, rem) =>
      match skipWs rem with
      | ',' :: rem2 =>
        match parseElems fuel rem2 with
        | some (xs, rem3) => some (v :: xs, rem3)
        | none => none
      | ']' :: rem2 => some ([v], rem2)
      | _ => none
    | none => none

end

/-- `serde_json::from_str::<Value>`: parse a complete JSON document;
anything but whitespace after the value is an error. The fuel
`2 * length + 2` dominates the parser's call depth, every two nested calls
consuming at least one input character. -/
def parseJson (s : String) : Option Json :=
  match parseVal (2 * s.data.length + 2) s.data with
  | some (v, rem) =>
    match skipWs rem with
    | [] => some v
    | _ => none
  | none => none

/-! ## JSON accessors (`Value::get`, `Value::as_bool`, `Value::as_u64`) -/

def lookupField : List (String × Json) → String → Option Json
  | [], _ => none
  | (k, v) :: fs, key => if k = key then some v else lookupField fs key

/-- `Value::get(key)`: `Some` only on objects that carry the key. -/
def jGet (j : Json) (key : String) : Option Json :=
  match j with
  | Json.obj fs => lookupField fs key
  | _ => none

/-- `Value::as_bool`. -/
def jAsBool : Json → Option Bool
  | Json.bool b => some b
  | _ => none

/-- `Value::as_u64`: integer values representable as `u64`. -/
def jAsU64 : Json → Option Nat
  | Json.num n => if 0 ≤ n ∧ n < 2 ^ 64 then some n.toNat else none
  | _ => none

def jGetBool (j : Json) (key : String) : Option Bool :=
  (jGet j key).bind jAsBool

def jGetU64 (j : Json) (key : String) : Option Nat :=
  (jGet j key).bind jAsU64

example : parseJson "\x7b\"a\":3\x7d" = some (Json.obj [("a", Json.num 3)]) := rfl
example : parseJson "  true " = some (Json.bool true) := rfl
example : parseJson "\x7b\x7d" = some (Json.obj []) := rfl
example : parseJson "not json" = none := rfl
example : parseJson "\x7b\"a\":3" = none := rfl
example : parseJson "3 x" = none := rfl
example : parseJson "[1,2]" = some (Json.arr [Json.num 1, Json.num 2]) := rfl
example : parseJson "-7" = some (Json.num (-7)) := rfl
example : parseJson "1.5" = some (Json.fnum "1.5") := rfl
example : jAsU64 (Json.fnum "1.5") = none := rfl
example : parseJson "\"a\\nb\"" = some (Json.str "a\nb") := rfl

/-! ## Data model (`Config`, `MessageStats`, `BridgeStatus`, `LogEntry`)

The `u32` message counters and the `u16` server port are carried as `Nat`;
the Rust `as u32` / `as u16` casts appear explicitly as `% 2 ^ 32` /
`% 2 ^ 16` at the points where the code performs them. -/

structure Config where
  slack_bot_token : String
  slack_app_token : String
  slack_signing_secret : String
  lark_webhook_url : String
  lark_app_id : String
  lark_app_secret : String
  slack_user_token : String
  default_slack_channel : String
  send_as_user : Bool
  slack_client_id : String
  slack_client_secret : String
  slack_user_name : String
  deriving DecidableEq

/-- `Config::default()`: every string empty, `send_as_user` false. -/
def defaultConfig : Config :=
  { slack_bot_token := ""
    slack_app_token := ""
    slack_signing_secret := ""
    lark_webhook_url := ""
    lark_app_id := ""
    lark_app_secret := ""
    slack_user_token := ""
    default_slack_channel := ""
    send_as_user := false
    slack_client_id := ""
    slack_client_secret := ""
    slack_user_name := "" }

structure MessageStats where
  slack_to_lark : Nat
  lark_to_slack : Nat
  deriving DecidableEq

structure BridgeStatus where
  is_running : Bool
  slack_connected : Bool
  lark_connected : Bool
  message_stats : MessageStats
  server_port : Option Nat
  deriving DecidableEq

/-- `BridgeStatus::default()`. -/
def initialStatus : BridgeStatus :=
  { is_running := false
    slack_connected := false
    lark_connected := false
    message_stats := { slack_to_lark := 0, lark_to_slack := 0 }
    server_port := none }

structure LogEntry where
  level : String
  message : String
  timestamp : String
  deriving DecidableEq

/-- `serde_json::from_str::<LogEntry>` applied to an already parsed value:
an object carrying the three required string fields (extra fields are
tolerated, as serde tolerates them by default). -/
def parseLogEntry (j : Json) : Option LogEntry :=
  match jGet j "level", jGet j "message", jGet j "timestamp" with
  | some (Json.str l), some (Json.str m), some (Json.str t) =>
    some { level := l, message := m, timestamp := t }
  | _, _, _ => none

/-! ## Event stream parser (the stdout thread body in `start_bridge`) -/

/-- The `emit_all` events the stdout thread can publish. -/
inductive Event where
  | bridgeStatus (data : Json)
  | bridgeLog (entry : LogEntry)
  | bridgeError (payload : Json)
  | bridgeReady (payload : Json)

/-- `str::starts_with` for the ASCII protocol tags (byte-level and
char-level prefixes agree on ASCII patterns). -/
def strStartsWith (s p : String) : Bool :=
  p.data.isPrefixOf s.data

/-- `&line[n..]` at an ASCII boundary. -/
def strDrop (s : String) (n : Nat) : String :=
  String.mk (s.data.drop n)

/-- `if let Some(is_running) = data.get("isRunning").and_then(|v| v.as_bool())`. -/
def updIsRunning (d : Json) (st : BridgeStatus) : BridgeStatus :=
  match jGetBool d "isRunning" with
  | some b => { st with is_running := b }
  | none => st

def updSlackConnected (d : Json) (st : BridgeStatus) : BridgeStatus :=
  match jGetBool d "slackConnected" with
  | some b => { st with slack_connected := b }
  | none => st

def updLarkConnected (d : Json) (st : BridgeStatus) : BridgeStatus :=
  match jGetBool d "larkConnected" with
  | some b => { st with lark_connected := b }
  | none => st

/-- `if let Some(stats) = data.get("messageStats")`: each present numeric
sub-field is stored through the `as u32` cast. -/
def updMessageStats (d : Json) (st : BridgeStatus) : BridgeStatus :=
  match jGet d "messageStats" with
  | some stats =>
    let st1 :=
      match jGetU64 stats "slackToLark" with
      | some n => { st with message_stats := { st.message_stats with slack_to_lark := n % 2 ^ 32 } }
      | none => st
    match jGetU64 stats "larkToSlack" with
    | some n => { st1 with message_stats := { st1.message_stats with lark_to_slack := n % 2 ^ 32 } }
    | none => st1
  | none => st

/-- The four sequential `if let` updates of the `STATUS:` branch. -/
def applyStatusData (d : Json) (st : BridgeStatus) : BridgeStatus :=
  updMessageStats d (updLarkConnected d (updSlackConnected d (updIsRunning d st)))

/-- One iteration of the stdout thread's `for line in reader.lines()` body:
fixed-prefix dispatch, returning the updated shared status and the events
published for this line. -/
def handleLine (line : String) (st : BridgeStatus) : BridgeStatus × List Event :=
  if strStartsWith line "STATUS:" then
    match parseJson (strDrop line 7) with
    | some statusUpdate =>
      match jGet statusUpdate "data" with
      | some data => (applyStatusData data st, [Event.bridgeStatus data])
      | none => (st, [])
    | none => (st, [])
  else if strStartsWith line "LOG:" then
    match parseJson (strDrop line 4) with
    | some v =>
      match parseLogEntry v with
      | some entry => (st, [Event.bridgeLog entry])
      | none => (st, [])
    | none => (st, [])
  else if strStartsWith line "ERROR:" then
    match parseJson (strDrop line 6) with
    | some v => (st, [Event.bridgeError v])
    | none => (st, [])
  else if strStartsWith line "READY:" then
    match parseJson (strDrop line 6) with
    | some ready =>
      match jGetU64 ready "port" with
      | some p => ({ st with server_port := some (p % 2 ^ 16) }, [Event.bridgeReady ready])
      | none => (st, [Event.bridgeReady ready])
    | none => (st, [])
  else (st, [])

/-- The whole reader loop over a sequence of stdout lines. -/
def processLines : List String → BridgeStatus → BridgeStatus × List Event
  | [], st => (st, [])
  | l :: ls, st =>
    match handleLine l st with
    | (st1, evs) =>
      match processLines ls st1 with
      | (st2, evs2) => (st2, evs ++ evs2)

/-! ## Process supervisor (`start_bridge`, `stop_bridge`)

The process-wide `AppState` fields touched by these commands. The
`Mutex<Option<Child>>` is carried as `child : Option Nat` (the pid);
`config_path` and the spawned reader thread live outside this state. -/

structure SupervisorState where
  config : Config
  status : BridgeStatus
  child : Option Nat
  deriving DecidableEq

/-- Outcomes of the external probes and effects `start_bridge` performs,
in the order the code performs them: `find_node_executable()`, the
`current_exe()` parent lookup, the CLI-script path probe, `spawn()`
(`some pid` on success), and `child.stdout.take()`. -/
structure StartEnv where
  nodePath : Option String
  exeDirOk : Bool
  cliPath : Option String
  spawnResult : Option Nat
  stdoutOk : Bool

/-- Fixed stand-ins for the two `format!`-built error strings whose
interpolated parts (the io error, the probed path list) come from the
environment. -/
def cliNotFoundMsg : String :=
  "CLIスクリプトが見つかりません。lark-slack-connectorをビルドしてください。"

def spawnFailedMsg : String := "ブリッジプロセス起動エラー"

def exeDirMsg : String := "実行ファイルパス取得エラー"

/-- `start_bridge`: returns the state after the call together with the
command's result. An `Err` is returned before anything is stored, so the
state component stays untouched on every failure path. -/
def startBridge (env : StartEnv) (s : SupervisorState) :
    SupervisorState × Except String BridgeStatus :=
  if s.child.isSome then (s, Except.error "ブリッジは既に実行中です")
  else
    let config := s.config
    if config.slack_bot_token = "" then
      (s, Except.error "Slack Bot Tokenが設定されていません")
    else if config.slack_app_token = "" then
      (s, Except.error "Slack App Tokenが設定されていません")
    else if config.lark_webhook_url = "" then
      (s, Except.error "Lark Webhook URLが設定されていません")
    else
      match env.nodePath with
      | none => (s, Except.error "Node.js が見つかりません。Node.jsをインストールしてください。")
      | some _ =>
        if ¬ env.exeDirOk then (s, Except.error exeDirMsg)
        else
          match env.cliPath with
          | none => (s, Except.error cliNotFoundMsg)
          | some _ =>
            match env.spawnResult with
            | none => (s, Except.error spawnFailedMsg)
            | some pid =>
              if env.stdoutOk then
                let status := { s.status with is_running := true }
                ({ s with child := some pid, status := status }, Except.ok status)
              else (s, Except.error "stdout取得エラー")

/-- `stop_bridge`: takes the child handle out of the state; when one was
present, the graceful `POST /stop`, the 500 ms grace sleep, the `kill()`
and the `wait()` all happen at that point with their results discarded
(`let _ = ...` in the source) — `httpOk` and `killOk` carry those outcomes
and are never consulted. Then the four status fields are reset
(`message_stats` is not touched) and the fresh status is returned as `Ok`. -/
def stopBridge (httpOk killOk : Bool) (s : SupervisorState) :
    SupervisorState × Except String BridgeStatus :=
  let _ := httpOk
  let _ := killOk
  let newStatus : BridgeStatus :=
    { s.status with
        is_running := false
        slack_connected := false
        lark_connected := false
        server_port := none }
  ({ config := s.config, status := newStatus, child := none }, Except.ok newStatus)

/-! ## Config persistence (`save_config`, `save_config_to_file`) -/

/-- `save_config_to_file`: `serde_json::to_string_pretty` cannot fail on
`Config` (plain strings and bools), so the outcome is the outcome of
`fs::write`, supplied by the filesystem oracle `fsWrite`. -/
def saveConfigToFile (fsWrite : Config → Except String Unit) (c : Config) :
    Except String Unit :=
  fsWrite c

/-- `save_config`: `save_config_to_file(&config, &state.config_path)?`
then `*state.config.lock().unwrap() = config`. Returns the command result
and the in-memory config after the call. -/
def saveConfig (fsWrite : Config → Except String Unit) (mem c : Config) :
    Except String Unit × Config :=
  match saveConfigToFile fsWrite c with
  | Except.error e => (Except.error e, mem)
  | Except.ok _ => (Except.ok (), c)

/-! ## OAuth completion (`complete_slack_oauth`) -/

/-- `OAuthRetrieveResponse`. -/
structure OAuthRetrieveResponse where
  code : Option String
  error : Option String
  deriving DecidableEq

/-- What one `GET /oauth/retrieve` attempt can observe: a network error, or
a response with its HTTP success bit and — examined only when successful —
the result of decoding the body (`none` when the body fails to decode). -/
inductive RelayResponse where
  | netErr
  | resp (success : Bool) (parsed : Option OAuthRetrieveResponse)
  deriving DecidableEq

/-- Result of the polling phase, each constructor carrying the number of
retrieval attempts performed. `timeout` stands for the
`"認証がタイムアウトしました。再度お試しください。"` error,
`parseError` for the `"レスポンス解析エラー"` early return raised by `?`
inside the loop when a 2xx body fails to decode. -/
inductive PollOutcome where
  | gotCode (code : String) (attempts : Nat)
  | parseError (attempts : Nat)
  | timeout (attempts : Nat)
  deriving DecidableEq

def pollAttempts : PollOutcome → Nat
  | PollOutcome.gotCode _ n => n
  | PollOutcome.parseError n => n
  | PollOutcome.timeout n => n

/-- The body of `for _ in 0..120`: `i` is the index of the next attempt,
the second argument the remaining iteration budget. -/
def pollGo (relay : Nat → RelayResponse) : Nat → Nat → PollOutcome
  | i, 0 => PollOutcome.timeout i
  | i, n + 1 =>
    match relay i with
    | RelayResponse.netErr => pollGo relay (i + 1) n
    | RelayResponse.resp ok body =>
      if ok then
        match body with
        | none => PollOutcome.parseError (i + 1)
        | some r =>
          match r.code with
          | some c => PollOutcome.gotCode c (i + 1)
          | none => pollGo relay (i + 1) n
      else pollGo relay (i + 1) n

/-- The polling phase of `complete_slack_oauth`: 120 attempts, starting at
attempt 0. -/
def completeOAuthPoll (relay : Nat → RelayResponse) : PollOutcome :=
  pollGo relay 0 120

/-- An attempt whose response lets the loop continue: a network error, a
non-2xx response, or a 2xx response that decodes with no code in it. -/
def continuesPolling : RelayResponse → Bool
  | RelayResponse.netErr => true
  | RelayResponse.resp false _ => true
  | RelayResponse.resp true none => false
  | RelayResponse.resp true (some r) => r.code.isNone

/-- An attempt that delivers an authorization code. -/
def yieldsCode : RelayResponse → Bool
  | RelayResponse.resp true (some r) => r.code.isSome
  | _ => false

/-- The config commit at the end of a successful `complete_slack_oauth`:
under one lock acquisition, the three fields are written and
`save_config_to_file` is invoked (its error is only logged). `written` is
the trace of configs handed to `save_config_to_file`. -/
def completeOAuthCommit (token name : String) (c : Config) (written : List Config) :
    Config × List Config :=
  let c2 := { c with slack_user_token := token, slack_user_name := name, send_as_user := true }
  (c2, written ++ [c2])

/-! ## Polling-loop lemmas -/

lemma pollGo_attempts_le (relay : Nat → RelayResponse) :
    ∀ (n i : Nat), pollAttempts (pollGo relay i n) ≤ i + n := by
  intro n
  induction n with
  | zero => intro i; simp [pollGo, pollAttempts]
  | succ n ih =>
    intro i
    have h1 := ih (i + 1)
    cases hr : relay i with
    | netErr =>
      simp [pollGo, hr]
      omega
    | resp ok body =>
      cases ok with
      | false =>
        simp [pollGo, hr]
        omega
      | true =>
        cases body with
        | none => simp [pollGo, hr, pollAttempts]
        | some r =>
          cases hc : r.code with
          | none =>
            simp [pollGo, hr, hc]
            omega
          | some c =>
            simp [pollGo, hr, hc, pollAttempts]

lemma pollGo_timeout (relay : Nat → RelayResponse) :
    ∀ (n i : Nat),
      (∀ j, i ≤ j → j < i + n → continuesPolling (relay j) = true) →
      pollGo relay i n = PollOutcome.timeout (i + n) := by
  intro n
  induction n with
  | zero => intro i _; simp [pollGo]
  | succ n ih =>
    intro i h
    have hi : continuesPolling (relay i) = true := h i le_rfl (by omega)
    have hrec := ih (i + 1) (fun j hj1 hj2 => h j (by omega) (by omega))
    have harith : i + 1 + n = i + (n + 1) := by omega
    cases hr : relay i with
    | netErr =>
      simp only [pollGo, hr]
      rw [hrec]
      exact congrArg PollOutcome.timeout harith
    | resp ok body =>
      cases ok with
      | false =>
        simp only [pollGo, hr, if_neg Bool.false_ne_true]
        rw [hrec]
        exact congrArg PollOutcome.timeout harith
      | true =>
        cases body with
        | none =>
          rw [hr] at hi
          simp [continuesPolling] at hi
        | some r =>
          rw [hr] at hi
          simp only [continuesPolling, Option.isNone_iff_eq_none] at hi
          simp only [pollGo, hr, if_pos rfl, hi]
          rw [hrec]
          exact congrArg PollOutcome.timeout harith

lemma pollGo_gotCode (relay : Nat → RelayResponse) :
    ∀ (n i k : Nat) (r : OAuthRetrieveResponse) (c : String),
      k < n →
      (∀ j, i ≤ j → j < i + k → continuesPolling (relay j) = true) →
      relay (i + k) = RelayResponse.resp true (some r) →
      r.code = some c →
      pollGo relay i n = PollOutcome.gotCode c (i + k + 1) := by
  intro n
  induction n with
  | zero => intro i k r c hk; exact absurd hk (by omega)
  | succ n ih =>
    intro i k r c hk h hrel hcode
    cases k with
    | zero =>
      have hi : relay i = RelayResponse.resp true (some r) := by
        simpa using hrel
      simp [pollGo, hi, hcode]
    | succ k =>
      have hi : continuesPolling (relay i) = true := h i le_rfl (by omega)
      have harith : i + 1 + k = i + (k + 1) := by omega
      have hrec := ih (i + 1) k r c (by omega)
        (fun j hj1 hj2 => h j (by omega) (by omega))
        (by rw [harith]; exact hrel) hcode
      have harith2 : i + 1 + k + 1 = i + (k + 1) + 1 := by omega
      cases hr : relay i with
      | netErr =>
        simp only [pollGo, hr]
        rw [hrec]
        exact congrArg (PollOutcome.gotCode c) harith2
      | resp ok body =>
        cases ok with
        | false =>
          simp only [pollGo, hr, if_neg Bool.false_ne_true]
          rw [hrec]
          exact congrArg (PollOutcome.gotCode c) harith2
        | true =>
          cases body with
          | none =>
            rw [hr] at hi
            simp [continuesPolling] at hi
          | some r2 =>
            rw [hr] at hi
            simp only [continuesPolling, Option.isNone_iff_eq_none] at hi
            simp only [pollGo, hr, if_pos rfl, hi]
            rw [hrec]
            exact congrArg (PollOutcome.gotCode c) harith2

lemma pollGo_parseAbort (relay : Nat → RelayResponse) :
    ∀ (n i k : Nat),
      k < n →
      (∀ j, i ≤ j → j < i + k → continuesPolling (relay j) = true) →
      relay (i + k) = RelayResponse.resp true none →
      pollGo relay i n = PollOutcome.parseError (i + k + 1) := by
  intro n
  induction n with
  | zero => intro i k hk; exact absurd hk (by omega)
  | succ n ih =>
    intro i k hk h hrel
    cases k with
    | zero =>
      have hi : relay i = RelayResponse.resp true none := by simpa using hrel
      simp [pollGo, hi]
    | succ k =>
      have hi : continuesPolling (relay i) = true := h i le_rfl (by omega)
      have harith : i + 1 + k = i + (k + 1) := by omega
      have hrec := ih (i + 1) k (by omega)
        (fun j hj1 hj2 => h j (by omega) (by omega))
        (by rw [harith]; exact hrel)
      have harith2 : i + 1 + k + 1 = i + (k + 1) + 1 := by omega
      cases hr : relay i with
      | netErr =>
        simp only [pollGo, hr]
        rw [hrec]
        exact congrArg PollOutcome.parseError harith2
      | resp ok body =>
        cases ok with
        | false =>
          simp only [pollGo, hr, if_neg Bool.false_ne_true]
          rw [hrec]
          exact congrArg PollOutcome.parseError harith2
        | true =>
          cases body with
          | none =>
            rw [hr] at hi
            simp [continuesPolling] at hi
          | some r2 =>
            rw [hr] at hi
            simp only [continuesPolling, Option.isNone_iff_eq_none] at hi
            simp only [pollGo, hr, if_pos rfl, hi]
            rw [hrec]
            exact congrArg PollOutcome.parseError harith2

/-! ## Claim C1 -/

/-- C1 counterexample: the claim states that when no attempt yields a code
the operation fails with `AuthorizationTimeout` after exactly 120 polls.
Against a relay whose very first response is 2xx with a body that fails to
decode, no attempt yields a code, yet the loop aborts through the `?` on
`resp.json()` with the parse error after a single poll. -/
theorem oauth_poll_parse_abort_cex :
    yieldsCode (RelayResponse.resp true none) = false ∧
    completeOAuthPoll (fun _ => RelayResponse.resp true none) = PollOutcome.parseError 1 ∧
    PollOutcome.parseError 1 ≠ PollOutcome.timeout 120 := by
  exact ⟨rfl, rfl, by decide⟩

/-- C1 (amended): the polling loop of `complete_slack_oauth` performs at
most 120 retrieval attempts; an attempt that decodes to a code — on any
index below 120, the 120th attempt (index 119) included — terminates
polling immediately with that code, while non-2xx responses, network
errors and decoded code-less 2xx responses never abort the loop; a 2xx
response whose body fails to decode aborts the flow immediately with a
parse error; and when every attempt is of the non-aborting code-less kind
the operation fails with the `AuthorizationTimeout` error after exactly
120 polls. -/
theorem oauth_poll_budget_spec :
    (∀ relay : Nat → RelayResponse, pollAttempts (completeOAuthPoll relay) ≤ 120) ∧
    (∀ (relay : Nat → RelayResponse) (k : Nat) (r : OAuthRetrieveResponse) (c : String),
      k < 120 → (∀ j, j < k → continuesPolling (relay j) = true) →
      relay k = RelayResponse.resp true (some r) → r.code = some c →
      completeOAuthPoll relay = PollOutcome.gotCode c (k + 1)) ∧
    (∀ (relay : Nat → RelayResponse) (k : Nat),
      k < 120 → (∀ j, j < k → continuesPolling (relay j) = true) →
      relay k = RelayResponse.resp true none →
      completeOAuthPoll relay = PollOutcome.parseError (k + 1)) ∧
    (∀ relay : Nat → RelayResponse,
      (∀ j, j < 120 → continuesPolling (relay j) = true) →
      completeOAuthPoll relay = PollOutcome.timeout 120) := by
  refine ⟨?_, ?_, ?_, ?_⟩
  · intro relay
    have := pollGo_attempts_le relay 120 0
    simpa [completeOAuthPoll] using this
  · intro relay k r c hk h hrel hcode
    have := pollGo_gotCode relay 120 0 k r c hk
      (fun j _ hj2 => h j (by omega)) (by simpa using hrel) hcode
    simpa [completeOAuthPoll] using this
  · intro relay k hk h hrel
    have := pollGo_parseAbort relay 120 0 k hk
      (fun j _ hj2 => h j (by omega)) (by simpa using hrel)
    simpa [completeOAuthPoll] using this
  · intro relay h
    have := pollGo_timeout relay 120 0 (fun j _ hj2 => h j (by omega))
    simpa [completeOAuthPoll] using this

/-- The spec's simulated relay: non-2xx for the first 119 polls, then 200
with a code on the 120th (index 119). -/
def relayLate : Nat → RelayResponse := fun j =>
  if j < 119 then RelayResponse.resp false none
  else RelayResponse.resp true (some { code := some "auth-code", error := none })

/-- A relay that never answers at all. -/
def relayNever : Nat → RelayResponse := fun _ => RelayResponse.netErr

/-- A relay whose third poll returns 2xx with an undecodable body. -/
def relayBadBody : Nat → RelayResponse := fun j =>
  if j < 2 then RelayResponse.netErr else RelayResponse.resp true none

theorem oauth_poll_budget_spec_witness :
    pollAttempts (completeOAuthPoll relayLate) ≤ 120 ∧
    completeOAuthPoll relayLate = PollOutcome.gotCode "auth-code" 120 ∧
    completeOAuthPoll relayBadBody = PollOutcome.parseError 3 ∧
    completeOAuthPoll relayNever = PollOutcome.timeout 120 := by
  refine ⟨oauth_poll_budget_spec.1 relayLate, ?_, ?_, ?_⟩
  · exact oauth_poll_budget_spec.2.1 relayLate 119
      { code := some "auth-code", error := none } "auth-code" (by decide)
      (fun j hj => by simp [relayLate, continuesPolling, hj]) rfl rfl
  · exact oauth_poll_budget_spec.2.2.1 relayBadBody 2 (by decide)
      (fun j hj => by simp [relayBadBody, continuesPolling, hj]) rfl
  · exact oauth_poll_budget_spec.2.2.2 relayNever (fun j _ => rfl)

/-! ## Claim C3 -/

/-- C3: with no child process running, `start_bridge` on a config with a
missing required field fails with the error naming the first missing field
in the fixed order bot token, app token, webhook URL, and leaves the state
(config, status, child handle) untouched. -/
theorem start_bridge_invalid_config :
    ∀ (env : StartEnv) (s : SupervisorState), s.child = none →
      ((s.config.slack_bot_token = "" →
        startBridge env s = (s, Except.error "Slack Bot Tokenが設定されていません")) ∧
       (s.config.slack_bot_token ≠ "" → s.config.slack_app_token = "" →
        startBridge env s = (s, Except.error "Slack App Tokenが設定されていません")) ∧
       (s.config.slack_bot_token ≠ "" → s.config.slack_app_token ≠ "" →
        s.config.lark_webhook_url = "" →
        startBridge env s = (s, Except.error "Lark Webhook URLが設定されていません"))) := by
  intro env s hchild
  refine ⟨?_, ?_, ?_⟩ <;> intros <;> simp_all [startBridge]

def probeEnv : StartEnv :=
  { nodePath := none, exeDirOk := true, cliPath := none, spawnResult := none, stdoutOk := true }

theorem start_bridge_invalid_config_witness :
    startBridge probeEnv ⟨defaultConfig, initialStatus, none⟩ =
      (⟨defaultConfig, initialStatus, none⟩,
       Except.error "Slack Bot Tokenが設定されていません") ∧
    startBridge probeEnv ⟨{ defaultConfig with slack_bot_token := "xoxb-1" }, initialStatus, none⟩ =
      (⟨{ defaultConfig with slack_bot_token := "xoxb-1" }, initialStatus, none⟩,
       Except.error "Slack App Tokenが設定されていません") ∧
    startBridge probeEnv
        ⟨{ defaultConfig with slack_bot_token := "xoxb-1", slack_app_token := "xapp-1" },
         initialStatus, none⟩ =
      (⟨{ defaultConfig with slack_bot_token := "xoxb-1", slack_app_token := "xapp-1" },
        initialStatus, none⟩,
       Except.error "Lark Webhook URLが設定されていません") := by
  refine ⟨?_, ?_, ?_⟩
  · exact (start_bridge_invalid_config probeEnv _ rfl).1 rfl
  · exact (start_bridge_invalid_config probeEnv _ rfl).2.1 (by decide) rfl
  · exact (start_bridge_invalid_config probeEnv _ rfl).2.2 (by decide) (by decide) rfl

/-! ## Claim C6 -/

/-- C6: when a child handle is stored, a second `start_bridge` call fails
with the already-running error before reading anything else, leaving the
child handle, the config and the shared status exactly as they were. -/
theorem start_bridge_already_running :
    ∀ (env : StartEnv) (s : SupervisorState) (pid : Nat), s.child = some pid →
      startBridge env s = (s, Except.error "ブリッジは既に実行中です") := by
  intro env s pid h
  simp [startBridge, h]

theorem start_bridge_already_running_witness :
    startBridge probeEnv ⟨defaultConfig, initialStatus, some 7⟩ =
      (⟨defaultConfig, initialStatus, some 7⟩, Except.error "ブリッジは既に実行中です") :=
  start_bridge_already_running probeEnv _ 7 rfl

/-! ## Claim C4 -/

/-- C4 counterexample: the claim states that after `stop_bridge` the shared
status equals the default `BridgeStatus`, message counters reset to zero.
Stopping from a status with five bridged messages leaves
`message_stats.slack_to_lark = 5`: the counters are not reset and the
resulting status differs from the default. -/
theorem stop_bridge_stats_cex :
    (stopBridge true true
        ⟨defaultConfig,
         { is_running := true, slack_connected := true, lark_connected := false,
           message_stats := { slack_to_lark := 5, lark_to_slack := 2 },
           server_port := some 3456 },
         some 1⟩).1.status.message_stats.slack_to_lark = 5 ∧
    (stopBridge true true
        ⟨defaultConfig,
         { is_running := true, slack_connected := true, lark_connected := false,
           message_stats := { slack_to_lark := 5, lark_to_slack := 2 },
           server_port := some 3456 },
         some 1⟩).1.status ≠ initialStatus := by
  exact ⟨rfl, by decide⟩

/-- C4 (amended): after `stop_bridge` returns, `is_running`,
`slack_connected` and `lark_connected` are false, `server_port` is `none`
and the child handle is cleared, regardless of whether the graceful
shutdown signal or the kill succeeded and regardless of the prior status;
the message counters are not reset and keep their prior values. -/
theorem stop_bridge_reset_spec :
    ∀ (httpOk killOk : Bool) (s : SupervisorState),
      stopBridge httpOk killOk s =
        ({ config := s.config,
           status := { is_running := false, slack_connected := false, lark_connected := false,
                       message_stats := s.status.message_stats, server_port := none },
           child := none },
         Except.ok { is_running := false, slack_connected := false, lark_connected := false,
                     message_stats := s.status.message_stats, server_port := none }) := by
  intro httpOk killOk s
  rfl

/-! ## Claim C7 -/

/-- C7: `stop_bridge` never returns an error: its result does not depend on
the outcomes of the graceful HTTP signal or of the kill/reap syscalls
(both are discarded), it always returns `Ok` with the post-call status;
with no child handle it returns a status with `is_running = false`, and a
repeated call with no child returns the same status and changes no state. -/
theorem stop_bridge_never_fails :
    (∀ (h₁ k₁ h₂ k₂ : Bool) (s : SupervisorState),
      stopBridge h₁ k₁ s = stopBridge h₂ k₂ s) ∧
    (∀ (h k : Bool) (s : SupervisorState),
      (stopBridge h k s).2 = Except.ok ((stopBridge h k s).1.status)) ∧
    (∀ (h k : Bool) (s : SupervisorState), s.child = none →
      (stopBridge h k s).2 =
        Except.ok { s.status with
          is_running := false, slack_connected := false,
          lark_connected := false, server_port := none } ∧
      stopBridge h k ((stopBridge h k s).1) = stopBridge h k s) := by
  refine ⟨fun _ _ _ _ _ => rfl, fun _ _ _ => rfl, fun h k s _ => ⟨rfl, rfl⟩⟩

theorem stop_bridge_never_fails_witness :
    (stopBridge true false ⟨defaultConfig, initialStatus, none⟩).2 =
      Except.ok { initialStatus with
        is_running := false, slack_connected := false,
        lark_connected := false, server_port := none } ∧
    stopBridge true false ((stopBridge true false ⟨defaultConfig, initialStatus, none⟩).1) =
      stopBridge true false ⟨defaultConfig, initialStatus, none⟩ :=
  stop_bridge_never_fails.2.2 true false ⟨defaultConfig, initialStatus, none⟩ rfl

/-! ## Claim C9 -/

/-- C9: a successful `complete_slack_oauth` commits, in one lock-held
update, exactly the user token, the user display name and the
send-as-user flag; the other nine config fields keep their prior values,
and the write of the updated config is handed to `save_config_to_file`. -/
theorem oauth_commit_frame :
    ∀ (c : Config) (written : List Config) (token name : String),
      ((completeOAuthCommit token name c written).1.slack_user_token = token) ∧
      ((completeOAuthCommit token name c written).1.slack_user_name = name) ∧
      ((completeOAuthCommit token name c written).1.send_as_user = true) ∧
      ((completeOAuthCommit token name c written).1.slack_bot_token = c.slack_bot_token) ∧
      ((completeOAuthCommit token name c written).1.slack_app_token = c.slack_app_token) ∧
      ((completeOAuthCommit token name c written).1.slack_signing_secret = c.slack_signing_secret) ∧
      ((completeOAuthCommit token name c written).1.lark_webhook_url = c.lark_webhook_url) ∧
      ((completeOAuthCommit token name c written).1.lark_app_id = c.lark_app_id) ∧
      ((completeOAuthCommit token name c written).1.lark_app_secret = c.lark_app_secret) ∧
      ((completeOAuthCommit token name c written).1.default_slack_channel = c.default_slack_channel) ∧
      ((completeOAuthCommit token name c written).1.slack_client_id = c.slack_client_id) ∧
      ((completeOAuthCommit token name c written).1.slack_client_secret = c.slack_client_secret) ∧
      ((completeOAuthCommit token name c written).2 =
        written ++ [(completeOAuthCommit token name c written).1]) := by
  intro c written token name
  exact ⟨rfl, rfl, rfl, rfl, rfl, rfl, rfl, rfl, rfl, rfl, rfl, rfl, rfl⟩

/-! ## Claim C10 -/

/-- C10: `save_config` persists before committing to memory: when
`fs::write` fails, the error is returned and the in-memory config is left
unchanged; when it succeeds, the in-memory config afterwards equals the
argument. -/
theorem save_config_atomic :
    ∀ (fsWrite : Config → Except String Unit) (mem c : Config),
      (∀ e, fsWrite c = Except.error e →
        saveConfig fsWrite mem c = (Except.error e, mem)) ∧
      (fsWrite c = Except.ok () →
        saveConfig fsWrite mem c = (Except.ok (), c)) := by
  intro fsWrite mem c
  constructor
  · intro e he
    simp [saveConfig, saveConfigToFile, he]
  · intro h
    simp [saveConfig, saveConfigToFile, h]

theorem save_config_atomic_witness :
    saveConfig (fun _ => Except.error "No space left on device") defaultConfig
        { defaultConfig with slack_user_name := "alice" } =
      (Except.error "No space left on device", defaultConfig) ∧
    saveConfig (fun _ => Except.ok ()) defaultConfig
        { defaultConfig with slack_user_name := "alice" } =
      (Except.ok (), { defaultConfig with slack_user_name := "alice" }) :=
  ⟨(save_config_atomic _ defaultConfig _).1 "No space left on device" rfl,
   (save_config_atomic _ defaultConfig _).2 rfl⟩

/-! ## Field-by-field characterisation of the `STATUS:` update -/

lemma updIsRunning_is_running (d : Json) (st : BridgeStatus) :
    (updIsRunning d st).is_running = (jGetBool d "isRunning").getD st.is_running := by
  unfold updIsRunning
  cases jGetBool d "isRunning" <;> rfl

lemma updIsRunning_slack_connected (d : Json) (st : BridgeStatus) :
    (updIsRunning d st).slack_connected = st.slack_connected := by
  unfold updIsRunning
  cases jGetBool d "isRunning" <;> rfl

lemma updIsRunning_lark_connected (d : Json) (st : BridgeStatus) :
    (updIsRunning d st).lark_connected = st.lark_connected := by
  unfold updIsRunning
  cases jGetBool d "isRunning" <;> rfl

lemma updIsRunning_message_stats (d : Json) (st : BridgeStatus) :
    (updIsRunning d st).message_stats = st.message_stats := by
  unfold updIsRunning
  cases jGetBool d "isRunning" <;> rfl

lemma updIsRunning_server_port (d : Json) (st : BridgeStatus) :
    (updIsRunning d st).server_port = st.server_port := by
  unfold updIsRunning
  cases jGetBool d "isRunning" <;> rfl

lemma updSlackConnected_is_running (d : Json) (st : BridgeStatus) :
    (updSlackConnected d st).is_running = st.is_running := by
  unfold updSlackConnected
  cases jGetBool d "slackConnected" <;> rfl

lemma updSlackConnected_slack_connected (d : Json) (st : BridgeStatus) :
    (updSlackConnected d st).slack_connected =
      (jGetBool d "slackConnected").getD st.slack_connected := by
  unfold updSlackConnected
  cases jGetBool d "slackConnected" <;> rfl

lemma updSlackConnected_lark_connected (d : Json) (st : BridgeStatus) :
    (updSlackConnected d st).lark_connected = st.lark_connected := by
  unfold updSlackConnected
  cases jGetBool d "slackConnected" <;> rfl

lemma updSlackConnected_message_stats (d : Json) (st : BridgeStatus) :
    (updSlackConnected d st).message_stats = st.message_stats := by
  unfold updSlackConnected
  cases jGetBool d "slackConnected" <;> rfl

lemma updSlackConnected_server_port (d : Json) (st : BridgeStatus) :
    (updSlackConnected d st).server_port = st.server_port := by
  unfold updSlackConnected
  cases jGetBool d "slackConnected" <;> rfl

lemma updLarkConnected_is_running (d : Json) (st : BridgeStatus) :
    (updLarkConnected d st).is_running = st.is_running := by
  unfold updLarkConnected
  cases jGetBool d "larkConnected" <;> rfl

lemma updLarkConnected_slack_connected (d : Json) (st : BridgeStatus) :
    (updLarkConnected d st).slack_connected = st.slack_connected := by
  unfold updLarkConnected
  cases jGetBool d "larkConnected" <;> rfl

lemma updLarkConnected_lark_connected (d : Json) (st : BridgeStatus) :
    (updLarkConnected d st).lark_connected =
      (jGetBool d "larkConnected").getD st.lark_connected := by
  unfold updLarkConnected
  cases jGetBool d "larkConnected" <;> rfl

lemma updLarkConnected_message_stats (d : Json) (st : BridgeStatus) :
    (updLarkConnected d st).message_stats = st.message_stats := by
  unfold updLarkConnected
  cases jGetBool d "larkConnected" <;> rfl

lemma updLarkConnected_server_port (d : Json) (st : BridgeStatus) :
    (updLarkConnected d st).server_port = st.server_port := by
  unfold updLarkConnected
  cases jGetBool d "larkConnected" <;> rfl

lemma updMessageStats_is_running (d : Json) (st : BridgeStatus) :
    (updMessageStats d st).is_running = st.is_running := by
  unfold updMessageStats
  cases h : jGet d "messageStats" with
  | none => rfl
  | some stats =>
    cases h2 : jGetU64 stats "slackToLark" <;> cases h3 : jGetU64 stats "larkToSlack" <;>
      simp [h2, h3]

lemma updMessageStats_slack_connected (d : Json) (st : BridgeStatus) :
    (updMessageStats d st).slack_connected = st.slack_connected := by
  unfold updMessageStats
  cases h : jGet d "messageStats" with
  | none => rfl
  | some stats =>
    cases h2 : jGetU64 stats "slackToLark" <;> cases h3 : jGetU64 stats "larkToSlack" <;>
      simp [h2, h3]

lemma updMessageStats_lark_connected (d : Json) (st : BridgeStatus) :
    (updMessageStats d st).lark_connected = st.lark_connected := by
  unfold updMessageStats
  cases h : jGet d "messageStats" with
  | none => rfl
  | some stats =>
    cases h2 : jGetU64 stats "slackToLark" <;> cases h3 : jGetU64 stats "larkToSlack" <;>
      simp [h2, h3]

lemma updMessageStats_server_port (d : Json) (st : BridgeStatus) :
    (updMessageStats d st).server_port = st.server_port := by
  unfold updMessageStats
  cases h : jGet d "messageStats" with
  | none => rfl
  | some stats =>
    cases h2 : jGetU64 stats "slackToLark" <;> cases h3 : jGetU64 stats "larkToSlack" <;>
      simp [h2, h3]

lemma updMessageStats_slack_to_lark (d : Json) (st : BridgeStatus) :
    (updMessageStats d st).message_stats.slack_to_lark =
      (((jGet d "messageStats").bind (fun stats => jGetU64 stats "slackToLark")).map
        (fun n => n % 2 ^ 32)).getD st.message_stats.slack_to_lark := by
  unfold updMessageStats
  cases h : jGet d "messageStats" with
  | none => simp
  | some stats =>
    cases h2 : jGetU64 stats "slackToLark" <;> cases h3 : jGetU64 stats "larkToSlack" <;>
      simp [h2, h3]

lemma updMessageStats_lark_to_slack (d : Json) (st : BridgeStatus) :
    (updMessageStats d st).message_stats.lark_to_slack =
      (((jGet d "messageStats").bind (fun stats => jGetU64 stats "larkToSlack")).map
        (fun n => n % 2 ^ 32)).getD st.message_stats.lark_to_slack := by
  unfold updMessageStats
  cases h : jGet d "messageStats" with
  | none => simp
  | some stats =>
    cases h2 : jGetU64 stats "slackToLark" <;> cases h3 : jGetU64 stats "larkToSlack" <;>
      simp [h2, h3]

/-! ## Claim C2 -/

/-- The concrete `STATUS:` line from the partial-update law. -/
def statusLineC2 : String :=
  "STATUS:\x7b\"data\":\x7b\"isRunning\":true,\"messageStats\":\x7b\"slackToLark\":3\x7d\x7d\x7d"

/-- The `data` object carried by `statusLineC2`. -/
def statusDataC2 : Json :=
  Json.obj [("isRunning", Json.bool true),
            ("messageStats", Json.obj [("slackToLark", Json.num 3)])]

/-- C2: feeding the parser the line
`STATUS:{"data":{"isRunning":true,"messageStats":{"slackToLark":3}}}` sets
`is_running` to true and the slack-to-lark counter to 3 while every other
status field keeps its prior value (and the data object is re-published);
in general, each sub-field present in a `STATUS:` payload with its
documented type overwrites exactly the corresponding shared-status field
and each absent sub-field leaves its field unchanged (`server_port` is
never touched by a `STATUS:` line). -/
theorem status_line_partial_update :
    (∀ st : BridgeStatus,
      handleLine statusLineC2 st =
        ({ st with
            is_running := true,
            message_stats := { st.message_stats with slack_to_lark := 3 } },
         [Event.bridgeStatus statusDataC2])) ∧
    (∀ (d : Json) (st : BridgeStatus),
      (applyStatusData d st).is_running = (jGetBool d "isRunning").getD st.is_running ∧
      (applyStatusData d st).slack_connected =
        (jGetBool d "slackConnected").getD st.slack_connected ∧
      (applyStatusData d st).lark_connected =
        (jGetBool d "larkConnected").getD st.lark_connected ∧
      (applyStatusData d st).message_stats.slack_to_lark =
        (((jGet d "messageStats").bind (fun stats => jGetU64 stats "slackToLark")).map
          (fun n => n % 2 ^ 32)).getD st.message_stats.slack_to_lark ∧
      (applyStatusData d st).message_stats.lark_to_slack =
        (((jGet d "messageStats").bind (fun stats => jGetU64 stats "larkToSlack")).map
          (fun n => n % 2 ^ 32)).getD st.message_stats.lark_to_slack ∧
      (applyStatusData d st).server_port = st.server_port) := by
  constructor
  · intro st
    rfl
  · intro d st
    unfold applyStatusData
    refine ⟨?_, ?_, ?_, ?_, ?_, ?_⟩ <;>
      simp only [updMessageStats_is_running, updMessageStats_slack_connected,
        updMessageStats_lark_connected, updMessageStats_server_port,
        updMessageStats_slack_to_lark, updMessageStats_lark_to_slack,
        updLarkConnected_is_running, updLarkConnected_slack_connected,
        updLarkConnected_lark_connected, updLarkConnected_message_stats,
        updLarkConnected_server_port,
        updSlackConnected_is_running, updSlackConnected_slack_connected,
        updSlackConnected_lark_connected, updSlackConnected_message_stats,
        updSlackConnected_server_port,
        updIsRunning_is_running, updIsRunning_slack_connected,
        updIsRunning_lark_connected, updIsRunning_message_stats,
        updIsRunning_server_port]

/-! ## Claim C5 -/

/-- C5 counterexample: the claim states that every `STATUS:` line whose
remainder is valid JSON publishes a bridge-status event. The line
`STATUS:{}` has a valid JSON remainder, yet the `if let Some(data) =
status_update.get("data")` guard fails and no event is published. -/
theorem status_no_data_cex :
    parseJson "\x7b\x7d" = some (Json.obj []) ∧
    strStartsWith "STATUS:\x7b\x7d" "STATUS:" = true ∧
    handleLine "STATUS:\x7b\x7d" initialStatus = (initialStatus, []) := by
  exact ⟨rfl, rfl, rfl⟩

/-- C5 (amended): for every stdout line beginning with `STATUS:` whose
remainder is valid JSON carrying a top-level `data` field, the parser
publishes exactly one bridge-status event (with that `data` value as
payload) regardless of which status sub-fields are present in it; a
valid-JSON remainder without a `data` field publishes no event. -/
theorem status_event_emission :
    ∀ (line : String) (st : BridgeStatus) (v : Json),
      strStartsWith line "STATUS:" = true →
      parseJson (strDrop line 7) = some v →
      ((∀ d, jGet v "data" = some d →
          (handleLine line st).2 = [Event.bridgeStatus d]) ∧
       (jGet v "data" = none → (handleLine line st).2 = [])) := by
  intro line st v h1 h2
  constructor
  · intro d hd
    simp [handleLine, h1, h2, hd]
  · intro hd
    simp [handleLine, h1, h2, hd]

theorem status_event_emission_witness :
    (handleLine "STATUS:\x7b\"data\":\x7b\x7d\x7d" initialStatus).2 =
      [Event.bridgeStatus (Json.obj [])] ∧
    (handleLine "STATUS:null" initialStatus).2 = [] := by
  constructor
  · exact (status_event_emission "STATUS:\x7b\"data\":\x7b\x7d\x7d" initialStatus
      (Json.obj [("data", Json.obj [])]) rfl rfl).1 (Json.obj []) rfl
  · exact (status_event_emission "STATUS:null" initialStatus Json.null rfl rfl).2 rfl

/-! ## Claim C8 -/

lemma isPrefixOf_head {a : Char} {p l : List Char}
    (h : (a :: p).isPrefixOf l = true) : ∃ t, l = a :: t := by
  cases l with
  | nil => simp [List.isPrefixOf] at h
  | cons b bs =>
    simp [List.isPrefixOf] at h
    exact ⟨bs, by rw [h.1]⟩

lemma isPrefixOf_false_of_head {a b : Char} {p t : List Char} (hne : a ≠ b) :
    (a :: p).isPrefixOf (b :: t) = false := by
  simp [List.isPrefixOf, hne]

/-- Two protocol tags with different first characters exclude each other. -/
lemma strStartsWith_ne_first {l p q : String} {a b : Char} {pt qt : List Char}
    (h : strStartsWith l p = true) (hp : p.data = a :: pt) (hq : q.data = b :: qt)
    (hne : b ≠ a) : strStartsWith l q = false := by
  unfold strStartsWith at h ⊢
  rw [hp] at h
  obtain ⟨t, ht⟩ := isPrefixOf_head h
  rw [hq, ht]
  exact isPrefixOf_false_of_head hne

/-- C8: a line with a recognised tag (`STATUS:`, `LOG:`, `ERROR:`,
`READY:`) whose body fails to decode as the shape the code feeds to serde
(arbitrary JSON for `STATUS:`/`ERROR:`/`READY:`, the three-string
`LogEntry` object for `LOG:`), and likewise any line with an unrecognised
tag, leaves every shared-status field unchanged, publishes no event,
surfaces no error, and does not disturb the processing of the other lines
of the stream. -/
theorem malformed_line_ignored :
    ∀ (line : String) (st : BridgeStatus),
      ((strStartsWith line "STATUS:" = true ∧ parseJson (strDrop line 7) = none) ∨
       (strStartsWith line "LOG:" = true ∧
         (parseJson (strDrop line 4)).bind parseLogEntry = none) ∨
       (strStartsWith line "ERROR:" = true ∧ parseJson (strDrop line 6) = none) ∨
       (strStartsWith line "READY:" = true ∧ parseJson (strDrop line 6) = none) ∨
       (strStartsWith line "STATUS:" = false ∧ strStartsWith line "LOG:" = false ∧
        strStartsWith line "ERROR:" = false ∧ strStartsWith line "READY:" = false)) →
      (handleLine line st = (st, []) ∧
       ∀ (pre post : List String) (st2 : BridgeStatus),
         processLines (pre ++ line :: post) st2 = processLines (pre ++ post) st2) := by
  intro line st hbad
  have key : ∀ σ : BridgeStatus, handleLine line σ = (σ, []) := by
    intro σ
    rcases hbad with ⟨h1, h2⟩ | ⟨h1, h2⟩ | ⟨h1, h2⟩ | ⟨h1, h2⟩ | ⟨h1, h2, h3, h4⟩
    · simp [handleLine, h1, h2]
    · have hS : strStartsWith line "STATUS:" = false :=
        strStartsWith_ne_first h1 rfl rfl (by decide)
      rcases hp : parseJson (strDrop line 4) with _ | v
      · simp [handleLine, hS, h1, hp]
      · rw [hp] at h2
        simp only [Option.some_bind] at h2
        simp [handleLine, hS, h1, hp, h2]
    · have hS : strStartsWith line "STATUS:" = false :=
        strStartsWith_ne_first h1 rfl rfl (by decide)
      have hL : strStartsWith line "LOG:" = false :=
        strStartsWith_ne_first h1 rfl rfl (by decide)
      simp [handleLine, hS, hL, h1, h2]
    · have hS : strStartsWith line "STATUS:" = false :=
        strStartsWith_ne_first h1 rfl rfl (by decide)
      have hL : strStartsWith line "LOG:" = false :=
        strStartsWith_ne_first h1 rfl rfl (by decide)
      have hE : strStartsWith line "ERROR:" = false :=
        strStartsWith_ne_first h1 rfl rfl (by decide)
      simp [handleLine, hS, hL, hE, h1, h2]
    · simp [handleLine, h1, h2, h3, h4]
  refine ⟨key st, ?_⟩
  intro pre post st2
  induction pre generalizing st2 with
  | nil =>
    simp [processLines, key st2]
  | cons p ps ih =>
    cases hh : handleLine p st2 with
    | mk st1 evs =>
      simp only [List.cons_append, processLines, hh, List.append_eq, ih st1]

theorem malformed_line_ignored_witness :
    handleLine "STATUS:oops" initialStatus = (initialStatus, []) ∧
    handleLine "WARN:something" initialStatus = (initialStatus, []) ∧
    processLines ["READY:notjson", "LOG:\x7b\"level\":\"info\"\x7d"] initialStatus =
      processLines ["READY:notjson"] initialStatus := by
  refine ⟨?_, ?_, ?_⟩
  · exact (malformed_line_ignored "STATUS:oops" initialStatus (Or.inl ⟨rfl, rfl⟩)).1
  · exact (malformed_line_ignored "WARN:something" initialStatus
      (Or.inr (Or.inr (Or.inr (Or.inr ⟨rfl, rfl, rfl, rfl⟩))))).1
  · exact (malformed_line_ignored "LOG:\x7b\"level\":\"info\"\x7d" initialStatus
      (Or.inr (Or.inl ⟨rfl, rfl⟩))).2 ["READY:notjson"] [] initialStatus
